import Mathlib

/-!
Shallow embedding of `src/client/rabbitmq/rabbitmq_client.py` (the RabbitMQ
bridge client) and proofs about it.

Conventions of the embedding:
* Python dictionaries holding YAML data are modelled as association lists
  `List (String × YamlValue)`; mutable dictionary objects are modelled by a
  small heap mapping references (naturals) to such lists.
* Broker side effects (exchange/queue declarations, bindings, publishes,
  acks/nacks, console output) are modelled as values in event lists, in the
  order the code issues them.
* External library behaviour is embedded where the claims depend on it:
  `yaml.safe_load` is modelled for scalar documents, `uuid.uuid4` by its
  CPython construction from 128 random bits, and pika's `basic_nack` default
  `requeue=True` is made explicit at each call site.
-/

/-- Plain YAML scalar values (the subset the bridge exchanges). -/
inductive YamlValue where
  | null
  | bool (b : Bool)
  | int (n : Int)
  | str (s : String)
deriving DecidableEq

/-- Configuration subtree `config['digital_twin']`. -/
structure DigitalTwinCfg where
  dt_id : String
  routing_key_send : String
deriving DecidableEq

/-- Configuration subtree for one exchange (`config['exchanges'][...]`). -/
structure ExchangeCfg where
  name : String
  type : String
  durable : Bool
deriving DecidableEq

/-- Configuration subtree `config['queue']`.  The source key
`result_queue_prefix` is spelled `resultQueuePrefix` here. -/
structure QueueCfg where
  resultQueuePrefix : String
  durable : Bool
  routing_key : String
deriving DecidableEq

/-- Configuration subtree `config['rabbitmq']` (connection parameters). -/
structure BrokerCfg where
  host : String
  port : Nat
  username : String
  password : String
  tls : Bool
  vhost : String
  heartbeat : Nat
deriving DecidableEq

/-- The whole configuration object returned by `load_config`. -/
structure Config where
  digital_twin : DigitalTwinCfg
  rabbitmq : BrokerCfg
  input_bridge : ExchangeCfg
  bridge_result : ExchangeCfg
  queue : QueueCfg
  payload_file : String
deriving DecidableEq

/-- One channel operation issued by `setup_infrastructure`, in source order. -/
inductive Op where
  | exchange_declare (exchange : String) (exchange_type : String) (durable : Bool)
  | queue_declare (queue : String) (durable : Bool)
  | queue_bind (exchange : String) (queue : String) (routing_key : String)
deriving DecidableEq

/-- The queue name derivation used at lines 86-89 of the source:
`f"{queue_cfg['result_queue_prefix']}.{self.dt_id}.result"`.  It is a function
of the configured prefix and the identity only. -/
def derived_queue_name (resultQueuePrefix identity : String) : String :=
  resultQueuePrefix ++ "." ++ identity ++ ".result"

/-- Embedding of `RabbitMQClient.setup_infrastructure`: the list of channel
operations it issues, in order, together with the value assigned to
`self.result_queue_name`. -/
def setup_infrastructure (cfg : Config) : List Op × String :=
  let input_ex := cfg.input_bridge
  let result_ex := cfg.bridge_result
  let queue_cfg := cfg.queue
  let name := derived_queue_name queue_cfg.resultQueuePrefix cfg.digital_twin.dt_id
  ([ Op.exchange_declare input_ex.name input_ex.type input_ex.durable,
     Op.exchange_declare result_ex.name result_ex.type result_ex.durable,
     Op.queue_declare name queue_cfg.durable,
     Op.queue_bind result_ex.name name queue_cfg.routing_key ],
   name)

/-- The value of `self.result_queue_name` after `setup_infrastructure`. -/
def result_queue_name (cfg : Config) : String :=
  (setup_infrastructure cfg).2

/-- The queue `start_listening` consumes from (`basic_consume` is passed
`self.result_queue_name`). -/
def start_listening_queue (cfg : Config) : String :=
  result_queue_name cfg

/-- Phase of a channel operation: exchange declarations come first (0), queue
declarations second (1), bindings last (2). -/
def opPhase : Op → Nat
  | Op.exchange_declare _ _ _ => 0
  | Op.queue_declare _ _ => 1
  | Op.queue_bind _ _ _ => 2

/-- Python `s.split('.')` on the character list of `s`: splits at every `'.'`,
keeping empty segments, and yields at least one segment. -/
def splitDots : List Char → List (List Char)
  | [] => [[]]
  | c :: t =>
    if c = '.' then [] :: splitDots t
    else
      match splitDots t with
      | [] => [[c]]
      | h :: r => (c :: h) :: r

/-- Embedding of `method.routing_key.split('.')[0]` (line 121): the first
dot-delimited segment of the routing key. -/
def firstSegment (s : String) : String :=
  String.mk ((splitDots s.data).headD [])

/-- One inbound result delivery: the fields of the pika callback the handler
reads (`method.routing_key`, `body`, `method.delivery_tag`). -/
structure Delivery where
  routing_key : String
  body : String
  delivery_tag : Nat
deriving DecidableEq

/-- Observable actions of the result handler: presenting a decoded result on
the console, acknowledging, or rejecting.  `nacked` carries the `requeue`
flag passed to the broker. -/
inductive Event where
  | presented (source : String) (value : YamlValue)
  | acked (delivery_tag : Nat)
  | nacked (delivery_tag : Nat) (requeue : Bool)
deriving DecidableEq

/-- Embedding of `RabbitMQClient.handle_result` (lines 118-135).
`safe_load` models `yaml.safe_load` on the delivery body; `present` models the
console presentation of the decoded value (the three `print` calls), which may
fail like any handler-level step.  A YAML error or any other exception is
caught and answered with `channel.basic_nack(method.delivery_tag)`; pika's
`basic_nack` defaults to `requeue=True`, which the embedding makes explicit. -/
def handle_result (safe_load : String → Except String YamlValue)
    (present : String → YamlValue → Except String Unit)
    (d : Delivery) : List Event :=
  let source := firstSegment d.routing_key
  match safe_load d.body with
  | Except.ok result =>
    match present source result with
    | Except.ok _ => [Event.presented source result, Event.acked d.delivery_tag]
    | Except.error _ => [Event.nacked d.delivery_tag true]
  | Except.error _ => [Event.nacked d.delivery_tag true]

/-- Embedding of the consume loop entered by `start_listening`: the handler is
run on each delivery in arrival order; because `handle_result` catches every
per-message failure, the loop never terminates early and each delivery
produces its own event list. -/
def start_consuming (safe_load : String → Except String YamlValue)
    (present : String → YamlValue → Except String Unit)
    (deliveries : List Delivery) : List (List Event) :=
  deliveries.map (handle_result safe_load present)

/-- YAML whitespace stripped by document trimming. -/
def isSpaceChar (c : Char) : Bool :=
  c = ' ' || c = '\n' || c = '\t' || c = '\r'

/-- Strip leading and trailing whitespace from a character list. -/
def trimChars (l : List Char) : List Char :=
  ((l.dropWhile isSpaceChar).reverse.dropWhile isSpaceChar).reverse

/-- Model of `yaml.safe_load` restricted to scalar documents, capturing the
behaviour the claims depend on: an empty document, `~` or `null` parses to the
YAML null value; an unclosed flow opener or a lone indicator raises
`YAMLError`; booleans and any other plain scalar parse to themselves. -/
def yamlSafeLoadScalar (s : String) : Except String YamlValue :=
  let t := trimChars s.data
  if t = [] ∨ t = ['~'] ∨ t = ['n', 'u', 'l', 'l'] ∨
      t = ['N', 'u', 'l', 'l'] ∨ t = ['N', 'U', 'L', 'L'] then
    Except.ok YamlValue.null
  else if t.head? = some '[' ∨ t.head? = some ']' ∨ t.head? = some ':' then
    Except.error "could not parse result body"
  else if t = ['t', 'r', 'u', 'e'] then Except.ok (YamlValue.bool true)
  else if t = ['f', 'a', 'l', 's', 'e'] then Except.ok (YamlValue.bool false)
  else Except.ok (YamlValue.str (String.mk t))

/-- Presentation that always succeeds: models the `print` calls completing
normally. -/
def present_console : String → YamlValue → Except String Unit :=
  fun _ _ => Except.ok ()

/-- A delivery whose body is not parsable YAML. -/
def bad_delivery : Delivery :=
  { routing_key := "solverA.done", body := "[", delivery_tag := 7 }

/-- A delivery whose body parses to the scalar `ok`. -/
def good_delivery : Delivery :=
  { routing_key := "solverA.done", body := "ok", delivery_tag := 3 }

/-- A delivery like `good_delivery` but with a longer routing key sharing the
same first dot-delimited segment. -/
def other_delivery : Delivery :=
  { routing_key := "solverA.other.path", body := "ok", delivery_tag := 3 }

/-- A delivery whose body is the empty string. -/
def empty_delivery : Delivery :=
  { routing_key := "solverB.x", body := "", delivery_tag := 9 }

/-- Insert a key/value pair into a key-sorted association list. -/
def insertByKey (p : String × YamlValue) :
    List (String × YamlValue) → List (String × YamlValue)
  | [] => [p]
  | q :: t => if p.1 ≤ q.1 then p :: q :: t else q :: insertByKey p t

/-- Sort an association list by key (PyYAML dumps mappings with
`sort_keys=True` by default). -/
def sortByKey : List (String × YamlValue) → List (String × YamlValue)
  | [] => []
  | p :: t => insertByKey p (sortByKey t)

/-- Render one scalar the way PyYAML block style does. -/
def yamlDumpScalar : YamlValue → String
  | YamlValue.null => "null"
  | YamlValue.bool true => "true"
  | YamlValue.bool false => "false"
  | YamlValue.int n => toString n
  | YamlValue.str s => s

/-- Model of `yaml.dump(payload, default_flow_style=False)` on a flat mapping
of scalars: one `key: value` line per entry, keys sorted. -/
def yamlDump (l : List (String × YamlValue)) : String :=
  String.join ((sortByKey l).map (fun p => p.1 ++ ": " ++ yamlDumpScalar p.2 ++ "\n"))

/-- Lower-case hex digit for a value below 16. -/
def hexChar (n : Nat) : Char :=
  if n < 10 then Char.ofNat (48 + n) else Char.ofNat (87 + n)

/-- Fixed-width big-endian hexadecimal digits of `n`, as `'%0*x' % (w, n)`
produces for `n < 16 ^ w`. -/
def hexDigits : Nat → Nat → List Char
  | 0, _ => []
  | w + 1, n => hexChar (n / 16 ^ w) :: hexDigits w (n % 16 ^ w)

/-- Numeric value of a lower-case hex digit character. -/
def unhex (c : Char) : Nat :=
  if c.toNat < 97 then c.toNat - 48 else c.toNat - 87

/-- CPython `str(uuid.UUID(int=n))`: the 32 hex digits of the 128-bit integer
in five dash-separated groups of 8, 4, 4, 4 and 12 digits. -/
def uuidString (n : Nat) : String :=
  String.mk
    (hexDigits 8 (n / 2 ^ 96) ++
      '-' :: (hexDigits 4 (n / 2 ^ 80 % 2 ^ 16) ++
        '-' :: (hexDigits 4 (n / 2 ^ 64 % 2 ^ 16) ++
          '-' :: (hexDigits 4 (n / 2 ^ 48 % 2 ^ 16) ++
            '-' :: hexDigits 12 (n % 2 ^ 48)))))

/-- CPython `uuid.uuid4().int`: 16 random bytes (`e % 2 ^ 128`), then the
RFC 4122 variant bits (`int &= ~(0xc000 << 48); int |= 0x8000 << 48`) and the
version-4 bits (`int &= ~(0xf000 << 64); int |= 0x4000 << 64`) are forced. -/
def uuid4Int (e : Nat) : Nat :=
  let n0 := e % 2 ^ 128
  let n1 := (n0 &&& ((2 ^ 128 - 1) ^^^ (0xc000 <<< 48))) ||| (0x8000 <<< 48)
  (n1 &&& ((2 ^ 128 - 1) ^^^ (0xf000 <<< 64))) ||| (0x4000 <<< 64)

/-- Tiny heap mapping dictionary references to their contents; models Python
object identity for the caller-owned payload mapping. -/
structure Heap where
  data : List (Nat × List (String × YamlValue))
  next : Nat

/-- Contents of the dictionary behind reference `r` (empty if unallocated). -/
def Heap.get (h : Heap) (r : Nat) : List (String × YamlValue) :=
  match h.data.find? (fun p => p.1 == r) with
  | some p => p.2
  | none => []

/-- Allocate a fresh dictionary holding `v`; returns the new heap and the
fresh reference. -/
def Heap.alloc (h : Heap) (v : List (String × YamlValue)) : Heap × Nat :=
  ({ data := (h.next, v) :: h.data, next := h.next + 1 }, h.next)

/-- Properties attached to the published message (`pika.BasicProperties`). -/
structure BasicProperties where
  delivery_mode : Nat
  content_type : String
  message_id : String
deriving DecidableEq

/-- One `basic_publish` call: target exchange, routing key, body and
properties. -/
structure PublishedMessage where
  exchange : String
  routing_key : String
  body : String
  properties : BasicProperties
deriving DecidableEq

/-- Embedding of `RabbitMQClient.send_simulation_request` (lines 98-116).
`payload_data` is a reference into the heap; the source first builds the
shallow copy `payload = { **payload_data }` (a fresh allocation), serializes
it with `yaml.dump`, and publishes with `delivery_mode=2`,
`content_type='application/x-yaml'` and `message_id=str(uuid.uuid4())`, where
`entropy` stands for the 128 random bits drawn by `uuid.uuid4()` for this
call.  Returns the heap after the call and the published message. -/
def send_simulation_request (cfg : Config) (h : Heap) (payload_data : Nat)
    (entropy : Nat) : Heap × PublishedMessage :=
  let alloc := h.alloc (h.get payload_data)
  let h1 := alloc.1
  let payload := alloc.2
  let payload_yaml := yamlDump (h1.get payload)
  let routing_key := cfg.digital_twin.routing_key_send
  (h1,
   { exchange := cfg.input_bridge.name
     routing_key := routing_key
     body := payload_yaml
     properties :=
       { delivery_mode := 2
         content_type := "application/x-yaml"
         message_id := uuidString (uuid4Int entropy) } })

/-- Observable steps of the primary context in `main`. -/
inductive MEvent where
  | printed_diagnostic
  | connect_attempt
  | published
deriving DecidableEq

/-- The files `main` reads: `none` models a missing file, `some (error e)` a
file whose YAML parsing fails, `some (ok v)` a readable well-formed file. -/
structure FS where
  config_file : Option (Except String Config)
  payload_file : Option (Except String (List (String × YamlValue)))

/-- Embedding of `load_config` (lines 12-22): a missing configuration file or
a YAML parse error prints a diagnostic and exits with status 1 before anything
else happens. -/
def load_config (fs : FS) : Except (List MEvent × Nat) Config :=
  match fs.config_file with
  | none => Except.error ([MEvent.printed_diagnostic], 1)
  | some (Except.error _) => Except.error ([MEvent.printed_diagnostic], 1)
  | some (Except.ok cfg) => Except.ok cfg

/-- Embedding of `main` (lines 159-186), tracking the primary context's
events and the process exit status.  After a successful `load_config` the
primary context constructs its own `RabbitMQClient` (a broker connection
attempt) outside any `try`; only then is the payload file read, inside a
`try` whose broad `except Exception` prints `Error: ...` and falls off the
end of `main`, so the process exits with status 0.  A readable payload is
published, and the process then sleeps until interrupted (exit status 0). -/
def mainRun (fs : FS) : List MEvent × Nat :=
  match load_config fs with
  | Except.error r => r
  | Except.ok _cfg =>
    match fs.payload_file with
    | none => ([MEvent.connect_attempt, MEvent.printed_diagnostic], 0)
    | some (Except.error _) => ([MEvent.connect_attempt, MEvent.printed_diagnostic], 0)
    | some (Except.ok _payload) => ([MEvent.connect_attempt, MEvent.published], 0)

/-- A concrete well-formed configuration used by witnesses. -/
def cfgEx : Config :=
  { digital_twin := { dt_id := "dt1", routing_key_send := "dt1.request" }
    rabbitmq :=
      { host := "localhost", port := 5672, username := "guest",
        password := "guest", tls := false, vhost := "/", heartbeat := 600 }
    input_bridge := { name := "ex.input", type := "topic", durable := true }
    bridge_result := { name := "ex.result", type := "topic", durable := true }
    queue := { resultQueuePrefix := "Q", durable := true, routing_key := "dt1.result.#" }
    payload_file := "payload.yaml" }

/-- A heap holding one caller-owned payload dictionary at reference 0. -/
def heapEx : Heap :=
  { data := [(0, [("task", YamlValue.str "run"), ("id", YamlValue.int 1)])], next := 1 }

/-- File system with a valid configuration file but no payload file. -/
def fs_missing_payload : FS :=
  { config_file := some (Except.ok cfgEx), payload_file := none }

/-- File system with no configuration file at all. -/
def fs_no_config : FS :=
  { config_file := none, payload_file := none }

/-- Thread-interleaving events for `main`: the listener thread (`l_` prefix,
running `start_dt_listener`) connects, declares the result queue (with its
exchange declarations and binding) and starts consuming; the primary context
(`p_` prefix) connects, declares the same result queue and publishes the
simulation request. -/
inductive TEv where
  | l_connect
  | l_declare_result_queue
  | l_consume
  | p_connect
  | p_declare_result_queue
  | p_publish
deriving DecidableEq

/-- All order-preserving merges of two event lists, computed with explicit
fuel so the recursion is structural. -/
def interleavingsAux : Nat → List TEv → List TEv → List (List TEv)
  | 0, xs, ys => [xs ++ ys]
  | _ + 1, [], ys => [ys]
  | _ + 1, x :: xs, [] => [x :: xs]
  | n + 1, x :: xs, y :: ys =>
    ((interleavingsAux n xs (y :: ys)).map (fun t => x :: t)) ++
      ((interleavingsAux n (x :: xs) ys).map (fun t => y :: t))

/-- All order-preserving merges of two event lists. -/
def interleavings (xs ys : List TEv) : List (List TEv) :=
  interleavingsAux (xs.length + ys.length) xs ys

/-- Program order of the listener thread (`start_dt_listener`: construct a
`RabbitMQClient`, which connects and runs `setup_infrastructure`, then
`start_listening`). -/
def listener_events : List TEv :=
  [TEv.l_connect, TEv.l_declare_result_queue, TEv.l_consume]

/-- Program order of the primary context after starting the listener thread
(construct a `RabbitMQClient`, which connects and runs
`setup_infrastructure`, then `send_simulation_request`). -/
def primary_events : List TEv :=
  [TEv.p_connect, TEv.p_declare_result_queue, TEv.p_publish]

/-- Every possible execution of `main`: the listener thread's events may
interleave arbitrarily with the primary context's events, with each context's
program order preserved; `main` provides no cross-thread synchronization. -/
def program_traces : List (List TEv) :=
  interleavings listener_events primary_events

/-- Position of the first occurrence of an event in a trace. -/
def posOf (e : TEv) : List TEv → Nat
  | [] => 0
  | x :: t => if x = e then 0 else posOf e t + 1

/-- The schedule in which the primary context runs to completion before the
listener thread is ever scheduled.  Nothing in `main` excludes it. -/
def t_primary_first : List TEv :=
  [TEv.p_connect, TEv.p_declare_result_queue, TEv.p_publish,
   TEv.l_connect, TEv.l_declare_result_queue, TEv.l_consume]

/-- The schedule in which the listener thread runs to completion first. -/
def t_listener_first : List TEv :=
  [TEv.l_connect, TEv.l_declare_result_queue, TEv.l_consume,
   TEv.p_connect, TEv.p_declare_result_queue, TEv.p_publish]

/-- C3: for every configuration, the result queue declared, bound and consumed
from is exactly `{result_queue_prefix}.{identity}.result`, a pure function of
the configured prefix and the identity (`dt_id`) alone: `derived_queue_name`
takes no other input. -/
theorem result_queue_name_is_derived (cfg : Config) :
    result_queue_name cfg =
      derived_queue_name cfg.queue.resultQueuePrefix cfg.digital_twin.dt_id ∧
    start_listening_queue cfg =
      derived_queue_name cfg.queue.resultQueuePrefix cfg.digital_twin.dt_id ∧
    (setup_infrastructure cfg).1 =
      [ Op.exchange_declare cfg.input_bridge.name cfg.input_bridge.type
          cfg.input_bridge.durable,
        Op.exchange_declare cfg.bridge_result.name cfg.bridge_result.type
          cfg.bridge_result.durable,
        Op.queue_declare
          (derived_queue_name cfg.queue.resultQueuePrefix cfg.digital_twin.dt_id)
          cfg.queue.durable,
        Op.queue_bind cfg.bridge_result.name
          (derived_queue_name cfg.queue.resultQueuePrefix cfg.digital_twin.dt_id)
          cfg.queue.routing_key ] := by
  exact ⟨rfl, rfl, rfl⟩

/-- C7: every invocation of `setup_infrastructure` issues all exchange
declarations first, then queue declarations, then bindings. -/
theorem setup_infrastructure_phase_ordered (cfg : Config) :
    ((setup_infrastructure cfg).1.map opPhase) = [0, 0, 1, 2] ∧
    List.Pairwise (fun a b => a ≤ b) ((setup_infrastructure cfg).1.map opPhase) := by
  refine ⟨rfl, ?_⟩
  show List.Pairwise (fun a b => a ≤ b) [0, 0, 1, 2]
  decide

/-- Splitting always yields at least one segment, as Python's `split` does. -/
theorem splitDots_ne_nil (l : List Char) : splitDots l ≠ [] := by
  cases l with
  | nil => simp [splitDots]
  | cons c t =>
    unfold splitDots
    split
    · simp
    · split <;> simp

/-- The first segment produced by `splitDots` is the longest dot-free
prefix. -/
theorem splitDots_headD (l : List Char) :
    (splitDots l).headD [] = l.takeWhile (fun c => c != '.') := by
  induction l with
  | nil => rfl
  | cons c t ih =>
    by_cases hc : c = '.'
    · subst hc
      simp [splitDots]
    · have hne := splitDots_ne_nil t
      cases hsp : splitDots t with
      | nil => exact absurd hsp hne
      | cons h r =>
        have hh : h = t.takeWhile (fun c => c != '.') := by
          rw [hsp] at ih
          simpa using ih
        unfold splitDots
        rw [if_neg hc, hsp]
        simp [List.takeWhile_cons, hc, hh]

/-- C1 (as stated, refuted): on the concrete non-parsable delivery
`bad_delivery`, `handle_result` records exactly one `Rejected` outcome, but
that rejection carries `requeue = true` (pika's `basic_nack` default), so the
claim that the rejection does not requeue the message is false. -/
theorem handle_result_no_requeue_counterexample :
    handle_result yamlSafeLoadScalar present_console bad_delivery =
      [Event.nacked 7 true] ∧
    Event.nacked 7 false ∉
      handle_result yamlSafeLoadScalar present_console bad_delivery := by
  constructor
  · rfl
  · decide

/-- C1 (amended): for every delivery whose body fails to deserialize, and for
every delivery where the handler-level presentation step fails, exactly one
`Rejected` outcome is recorded for that delivery's tag, the rejection requests
redelivery requeue (pika's `basic_nack` default `requeue=True`), and the
consume loop remains active: the remaining deliveries are processed exactly as
they would be on their own. -/
theorem handle_result_failure_nacks
    (safe_load : String → Except String YamlValue)
    (present : String → YamlValue → Except String Unit) (d : Delivery)
    (hfail : (∃ e, safe_load d.body = Except.error e) ∨
      (∃ v e, safe_load d.body = Except.ok v ∧
        present (firstSegment d.routing_key) v = Except.error e)) :
    handle_result safe_load present d = [Event.nacked d.delivery_tag true] ∧
    ∀ ds, start_consuming safe_load present (d :: ds) =
      [Event.nacked d.delivery_tag true] :: start_consuming safe_load present ds := by
  have h1 : handle_result safe_load present d = [Event.nacked d.delivery_tag true] := by
    rcases hfail with ⟨e, he⟩ | ⟨v, e, hv, hp⟩
    · simp [handle_result, he]
    · simp [handle_result, hv, hp]
  exact ⟨h1, fun ds => by simp [start_consuming, h1]⟩

/-- Witness for the amended C1 at a concrete bad delivery followed by a good
one. -/
theorem handle_result_failure_nacks_witness :
    handle_result yamlSafeLoadScalar present_console bad_delivery =
      [Event.nacked bad_delivery.delivery_tag true] ∧
    start_consuming yamlSafeLoadScalar present_console [bad_delivery, good_delivery] =
      [Event.nacked bad_delivery.delivery_tag true] ::
        start_consuming yamlSafeLoadScalar present_console [good_delivery] :=
  have h := handle_result_failure_nacks yamlSafeLoadScalar present_console bad_delivery
    (Or.inl ⟨"could not parse result body", by rfl⟩)
  ⟨h.1, h.2 [good_delivery]⟩

/-- C2: for every delivery whose body deserializes successfully and whose
presentation completes, `handle_result` presents the decoded value and origin
exactly once and then records exactly one `Acknowledged` outcome for the
delivery's tag: the event list is precisely the presentation followed by the
acknowledgment, so no `Rejected` outcome occurs. -/
theorem handle_result_ack_on_success
    (safe_load : String → Except String YamlValue)
    (present : String → YamlValue → Except String Unit) (d : Delivery)
    (v : YamlValue) (hres : safe_load d.body = Except.ok v)
    (hp : present (firstSegment d.routing_key) v = Except.ok ()) :
    handle_result safe_load present d =
      [Event.presented (firstSegment d.routing_key) v, Event.acked d.delivery_tag] := by
  simp [handle_result, hres, hp]

/-- Witness for C2 at a concrete well-formed delivery. -/
theorem handle_result_ack_on_success_witness :
    yamlSafeLoadScalar good_delivery.body = Except.ok (YamlValue.str "ok") ∧
    handle_result yamlSafeLoadScalar present_console good_delivery =
      [Event.presented (firstSegment good_delivery.routing_key) (YamlValue.str "ok"),
       Event.acked good_delivery.delivery_tag] :=
  ⟨by rfl,
   handle_result_ack_on_success yamlSafeLoadScalar present_console good_delivery
     (YamlValue.str "ok") (by rfl) (by rfl)⟩

/-- C9: a delivery whose body is empty (or the explicit YAML null document) is
treated as a successful deserialization: the handler presents `None` with the
origin and acknowledges; no `Rejected` outcome is recorded. -/
theorem handle_result_empty_body_acked
    (present : String → YamlValue → Except String Unit) (d : Delivery)
    (hb : trimChars d.body.data = [] ∨ trimChars d.body.data = ['~'] ∨
      trimChars d.body.data = ['n', 'u', 'l', 'l'])
    (hp : present (firstSegment d.routing_key) YamlValue.null = Except.ok ()) :
    handle_result yamlSafeLoadScalar present d =
      [Event.presented (firstSegment d.routing_key) YamlValue.null,
       Event.acked d.delivery_tag] := by
  have hload : yamlSafeLoadScalar d.body = Except.ok YamlValue.null := by
    unfold yamlSafeLoadScalar
    rcases hb with h | h | h <;> simp [h]
  simp [handle_result, hload, hp]

/-- Witness for C9 at a concrete empty-bodied delivery. -/
theorem handle_result_empty_body_acked_witness :
    trimChars empty_delivery.body.data = [] ∧
    handle_result yamlSafeLoadScalar present_console empty_delivery =
      [Event.presented (firstSegment empty_delivery.routing_key) YamlValue.null,
       Event.acked empty_delivery.delivery_tag] :=
  ⟨by rfl,
   handle_result_empty_body_acked present_console empty_delivery
     (Or.inl (by rfl)) (by rfl)⟩

/-- C8: on the success path the origin presented is exactly the first
dot-delimited segment of the routing key (the longest dot-free prefix), and
nothing else about the routing key affects the handler's output: any delivery
agreeing on body, tag and first segment produces identical events. -/
theorem handle_result_origin_first_segment
    (safe_load : String → Except String YamlValue)
    (present : String → YamlValue → Except String Unit) (d : Delivery)
    (v : YamlValue) (hres : safe_load d.body = Except.ok v)
    (hp : present (firstSegment d.routing_key) v = Except.ok ()) :
    handle_result safe_load present d =
      [Event.presented (firstSegment d.routing_key) v, Event.acked d.delivery_tag] ∧
    firstSegment d.routing_key =
      String.mk (d.routing_key.data.takeWhile (fun c => c != '.')) ∧
    (∀ d' : Delivery, d'.body = d.body → d'.delivery_tag = d.delivery_tag →
      firstSegment d'.routing_key = firstSegment d.routing_key →
      handle_result safe_load present d' = handle_result safe_load present d) := by
  refine ⟨by simp [handle_result, hres, hp], ?_, ?_⟩
  · unfold firstSegment
    rw [splitDots_headD]
  · intro d' hb ht hseg
    unfold handle_result
    rw [hb, ht, hseg]

/-- Witness for C8: the origin of `good_delivery` is `solverA`, and the
delivery `other_delivery`, which differs only after the first dot, produces
identical output. -/
theorem handle_result_origin_first_segment_witness :
    (handle_result yamlSafeLoadScalar present_console good_delivery =
      [Event.presented (firstSegment good_delivery.routing_key) (YamlValue.str "ok"),
       Event.acked good_delivery.delivery_tag]) ∧
    firstSegment good_delivery.routing_key =
      String.mk (good_delivery.routing_key.data.takeWhile (fun c => c != '.')) ∧
    handle_result yamlSafeLoadScalar present_console other_delivery =
      handle_result yamlSafeLoadScalar present_console good_delivery :=
  have h := handle_result_origin_first_segment yamlSafeLoadScalar present_console
    good_delivery (YamlValue.str "ok") (by rfl) (by rfl)
  ⟨h.1, h.2.1, h.2.2 other_delivery (by rfl) (by rfl) (by rfl)⟩

/-- C4 (as stated, refuted): the schedule that runs the primary context to
completion before the listener thread is a possible execution of `main`, and
in it the publish precedes the listener's topology declaration: `main` has no
synchronization forcing the listener's declaration first. -/
theorem main_listener_declare_order_counterexample :
    t_primary_first ∈ program_traces ∧
    ¬ posOf TEv.l_declare_result_queue t_primary_first <
        posOf TEv.p_publish t_primary_first := by
  decide

/-- C4 (amended): in every possible execution of `main`, the primary context
itself declares the result queue (its own `setup_infrastructure`, declaring
the identical `{result_queue_prefix}.{identity}.result` queue and binding)
before it publishes the simulation request, so the result queue exists before
publication regardless of how the listener thread is scheduled. -/
theorem main_publish_after_primary_declares :
    ∀ t ∈ program_traces,
      posOf TEv.p_declare_result_queue t < posOf TEv.p_publish t ∧
      TEv.p_declare_result_queue ∈ t ∧ TEv.p_publish ∈ t := by
  decide

/-- Witness for the amended C4 at the listener-first schedule. -/
theorem main_publish_after_primary_declares_witness :
    posOf TEv.p_declare_result_queue t_listener_first <
        posOf TEv.p_publish t_listener_first ∧
    TEv.p_declare_result_queue ∈ t_listener_first ∧
    TEv.p_publish ∈ t_listener_first :=
  main_publish_after_primary_declares t_listener_first (by decide)

/-- C6 (as stated, refuted): with a readable, well-formed configuration but a
missing payload file — a configuration error in the claim's taxonomy — the
process attempts a broker connection first, and exits with status 0, not a
non-zero status: the payload file is only read inside a `try` whose broad
`except Exception` prints the error and returns normally from `main`. -/
theorem main_missing_payload_counterexample :
    (mainRun fs_missing_payload).2 = 0 ∧
    MEvent.connect_attempt ∈ (mainRun fs_missing_payload).1 := by
  decide

/-- C6 (amended): a missing or malformed configuration file produces a
diagnostic and a non-zero exit before any broker connection is attempted; a
missing (or malformed) payload file, by contrast, produces its diagnostic only
after the broker connection attempt and the process exits with status 0. -/
theorem main_config_error_behavior (fs : FS) :
    ((fs.config_file = none ∨ ∃ e, fs.config_file = some (Except.error e)) →
      mainRun fs = ([MEvent.printed_diagnostic], 1)) ∧
    ((∃ cfg, fs.config_file = some (Except.ok cfg)) →
      (fs.payload_file = none ∨ ∃ e, fs.payload_file = some (Except.error e)) →
      mainRun fs = ([MEvent.connect_attempt, MEvent.printed_diagnostic], 0)) := by
  constructor
  · rintro (h | ⟨e, h⟩) <;> simp [mainRun, load_config, h]
  · rintro ⟨cfg, hc⟩ (h | ⟨e, h⟩) <;> simp [mainRun, load_config, hc, h]

/-- Witness for the amended C6: a missing configuration file and a missing
payload file, both concrete. -/
theorem main_config_error_behavior_witness :
    mainRun fs_no_config = ([MEvent.printed_diagnostic], 1) ∧
    mainRun fs_missing_payload = ([MEvent.connect_attempt, MEvent.printed_diagnostic], 0) :=
  ⟨(main_config_error_behavior fs_no_config).1 (Or.inl rfl),
   (main_config_error_behavior fs_missing_payload).2 ⟨cfgEx, rfl⟩ (Or.inl rfl)⟩

/-- Reading a freshly allocated dictionary returns exactly the stored
contents. -/
theorem Heap.get_alloc (h : Heap) (v : List (String × YamlValue)) :
    ((h.alloc v).1).get (h.alloc v).2 = v := by
  simp [Heap.alloc, Heap.get, List.find?_cons]

/-- Allocation leaves every previously allocated dictionary unchanged. -/
theorem Heap.get_alloc_ne (h : Heap) (v : List (String × YamlValue)) (r : Nat)
    (hr : ¬ r = h.next) : ((h.alloc v).1).get r = h.get r := by
  have hne : ¬ (h.next = r) := fun hh => hr hh.symm
  simp [Heap.alloc, Heap.get, List.find?_cons, hne]

/-- C10: `send_simulation_request` never mutates the caller-owned payload
mapping: it serializes a freshly allocated shallow copy, so the dictionary
behind the caller's reference is identical before and after the call, and the
published body is the serialization of exactly those contents. -/
theorem send_simulation_request_frame (cfg : Config) (h : Heap) (r e : Nat)
    (hr : r < h.next) :
    ((send_simulation_request cfg h r e).1).get r = h.get r ∧
    ((send_simulation_request cfg h r e).2).body = yamlDump (h.get r) := by
  have hne : ¬ r = h.next := Nat.ne_of_lt hr
  constructor
  · show ((h.alloc (h.get r)).1).get r = h.get r
    exact Heap.get_alloc_ne h _ r hne
  · show yamlDump (((h.alloc (h.get r)).1).get (h.alloc (h.get r)).2) = yamlDump (h.get r)
    rw [Heap.get_alloc]

/-- Witness for C10 on a concrete heap holding one payload dictionary. -/
theorem send_simulation_request_frame_witness :
    0 < heapEx.next ∧
    ((send_simulation_request cfgEx heapEx 0 0).1).get 0 = heapEx.get 0 ∧
    ((send_simulation_request cfgEx heapEx 0 0).2).body = yamlDump (heapEx.get 0) :=
  ⟨by decide,
   (send_simulation_request_frame cfgEx heapEx 0 0 (by decide)).1,
   (send_simulation_request_frame cfgEx heapEx 0 0 (by decide)).2⟩

/-- Fixed-width hex rendering always produces exactly `w` digits. -/
theorem hexDigits_length (w : Nat) : ∀ n, (hexDigits w n).length = w := by
  induction w with
  | zero => intro n; rfl
  | succ w ih => intro n; simp [hexDigits, ih]

/-- Decoding a hex digit character recovers the digit. -/
theorem unhex_hexChar : ∀ m < 16, unhex (hexChar m) = m := by decide

/-- Folding the digit values over a fixed-width hex rendering recovers the
rendered number. -/
theorem foldl_hex (w : Nat) :
    ∀ (a n : Nat), n < 16 ^ w →
      (hexDigits w n).foldl (fun acc c => 16 * acc + unhex c) a = a * 16 ^ w + n := by
  induction w with
  | zero =>
    intro a n hn
    have h0 : n = 0 := by simpa using hn
    subst h0
    simp [hexDigits]
  | succ w ih =>
    intro a n hn
    have hdiv : n / 16 ^ w < 16 := by
      apply Nat.div_lt_of_lt_mul
      calc n < 16 ^ (w + 1) := hn
        _ = 16 ^ w * 16 := by rw [pow_succ]
    have hmod : n % 16 ^ w < 16 ^ w := Nat.mod_lt _ (Nat.pow_pos (by norm_num))
    simp only [hexDigits, List.foldl_cons]
    rw [ih (16 * a + unhex (hexChar (n / 16 ^ w))) (n % 16 ^ w) hmod]
    rw [unhex_hexChar (n / 16 ^ w) hdiv]
    have hdm : 16 ^ w * (n / 16 ^ w) + n % 16 ^ w = n := Nat.div_add_mod n (16 ^ w)
    calc (16 * a + n / 16 ^ w) * 16 ^ w + n % 16 ^ w
        = a * (16 ^ w * 16) + (16 ^ w * (n / 16 ^ w) + n % 16 ^ w) := by ring
      _ = a * 16 ^ (w + 1) + n := by rw [hdm, pow_succ]

/-- Fixed-width hex rendering is injective below `16 ^ w`. -/
theorem hexDigits_injOn (w : Nat) {m n : Nat} (hm : m < 16 ^ w) (hn : n < 16 ^ w)
    (h : hexDigits w m = hexDigits w n) : m = n := by
  have h1 := foldl_hex w 0 m hm
  have h2 := foldl_hex w 0 n hn
  rw [h] at h1
  have := h1.symm.trans h2
  omega

/-- A UUID string is always 36 characters long. -/
theorem uuidString_length (n : Nat) : (uuidString n).length = 36 := by
  simp [uuidString, String.length, hexDigits_length]

/-- UUID rendering is injective on 128-bit integers. -/
theorem uuidString_injOn {m n : Nat} (hm : m < 2 ^ 128) (hn : n < 2 ^ 128)
    (h : uuidString m = uuidString n) : m = n := by
  unfold uuidString at h
  injection h with hdata
  obtain ⟨h1, hrest⟩ := List.append_inj hdata (by rw [hexDigits_length, hexDigits_length])
  injection hrest with hdash hrest
  obtain ⟨h2, hrest⟩ := List.append_inj hrest (by rw [hexDigits_length, hexDigits_length])
  injection hrest with hdash2 hrest
  obtain ⟨h3, hrest⟩ := List.append_inj hrest (by rw [hexDigits_length, hexDigits_length])
  injection hrest with hdash3 hrest
  obtain ⟨h4, hrest⟩ := List.append_inj hrest (by rw [hexDigits_length, hexDigits_length])
  injection hrest with hdash4 h5
  have b96m : m / 2 ^ 96 < 16 ^ 8 := Nat.div_lt_of_lt_mul (by norm_num at hm ⊢; omega)
  have b96n : n / 2 ^ 96 < 16 ^ 8 := Nat.div_lt_of_lt_mul (by norm_num at hn ⊢; omega)
  have bmod : ∀ x : Nat, x % 2 ^ 16 < 16 ^ 4 := fun x => by
    have := Nat.mod_lt x (y := 2 ^ 16) (by norm_num)
    norm_num at this ⊢
    omega
  have b48 : ∀ x : Nat, x % 2 ^ 48 < 16 ^ 12 := fun x => by
    have := Nat.mod_lt x (y := 2 ^ 48) (by norm_num)
    norm_num at this ⊢
    omega
  have e1 : m / 2 ^ 96 = n / 2 ^ 96 := hexDigits_injOn 8 b96m b96n h1
  have e2 : m / 2 ^ 80 % 2 ^ 16 = n / 2 ^ 80 % 2 ^ 16 :=
    hexDigits_injOn 4 (bmod _) (bmod _) h2
  have e3 : m / 2 ^ 64 % 2 ^ 16 = n / 2 ^ 64 % 2 ^ 16 :=
    hexDigits_injOn 4 (bmod _) (bmod _) h3
  have e4 : m / 2 ^ 48 % 2 ^ 16 = n / 2 ^ 48 % 2 ^ 16 :=
    hexDigits_injOn 4 (bmod _) (bmod _) h4
  have e5 : m % 2 ^ 48 = n % 2 ^ 48 := hexDigits_injOn 12 (b48 _) (b48 _) h5
  have p16 : (2 : Nat) ^ 16 = 65536 := by norm_num
  have p48 : (2 : Nat) ^ 48 = 281474976710656 := by norm_num
  have p64 : (2 : Nat) ^ 64 = 18446744073709551616 := by norm_num
  have p80 : (2 : Nat) ^ 80 = 1208925819614629174706176 := by norm_num
  have p96 : (2 : Nat) ^ 96 = 79228162514264337593543950336 := by norm_num
  have p128 : (2 : Nat) ^ 128 = 340282366920938463463374607431768211456 := by norm_num
  rw [p96] at e1
  rw [p80, p16] at e2
  rw [p64, p16] at e3
  rw [p48, p16] at e4
  rw [p48] at e5
  rw [p128] at hm hn
  omega

/-- The forced-bits construction keeps the UUID integer below `2 ^ 128`. -/
theorem uuid4Int_lt (e : Nat) : uuid4Int e < 2 ^ 128 := by
  show (((e % 2 ^ 128 &&& ((2 ^ 128 - 1) ^^^ (0xc000 <<< 48))) ||| (0x8000 <<< 48)) &&&
      ((2 ^ 128 - 1) ^^^ (0xf000 <<< 64))) ||| (0x4000 <<< 64) < 2 ^ 128
  have h0 : e % 2 ^ 128 < 2 ^ 128 := Nat.mod_lt _ (by norm_num)
  have h1 : (e % 2 ^ 128 &&& ((2 ^ 128 - 1) ^^^ (0xc000 <<< 48))) ||| (0x8000 <<< 48) < 2 ^ 128 :=
    Nat.or_lt_two_pow (Nat.lt_of_le_of_lt Nat.and_le_left h0) (by decide)
  exact Nat.or_lt_two_pow (Nat.lt_of_le_of_lt Nat.and_le_left h1) (by decide)

/-- C5: every published simulation request is persistent (`delivery_mode = 2`),
tagged `application/x-yaml`, carries the YAML serialization of the payload
mapping, and its message identifier is the UUID string freshly built from the
128 random bits drawn for that call; two sends whose forced-bits UUID integers
differ (i.e. whose fresh random draws differ outside the forced version and
variant bits) carry different message identifiers. -/
theorem send_simulation_request_properties (cfg cfg2 : Config) (h h2 : Heap)
    (r r2 e e2 : Nat) (hne : uuid4Int e ≠ uuid4Int e2) :
    (send_simulation_request cfg h r e).2.properties.delivery_mode = 2 ∧
    (send_simulation_request cfg h r e).2.properties.content_type = "application/x-yaml" ∧
    (send_simulation_request cfg h r e).2.body = yamlDump (h.get r) ∧
    (send_simulation_request cfg h r e).2.properties.message_id = uuidString (uuid4Int e) ∧
    ((send_simulation_request cfg h r e).2.properties.message_id).length = 36 ∧
    (send_simulation_request cfg h r e).2.properties.message_id ≠
      (send_simulation_request cfg2 h2 r2 e2).2.properties.message_id := by
  refine ⟨rfl, rfl, ?_, rfl, ?_, ?_⟩
  · show yamlDump (((h.alloc (h.get r)).1).get (h.alloc (h.get r)).2) = yamlDump (h.get r)
    rw [Heap.get_alloc]
  · show (uuidString (uuid4Int e)).length = 36
    exact uuidString_length _
  · show uuidString (uuid4Int e) ≠ uuidString (uuid4Int e2)
    intro hcon
    exact hne (uuidString_injOn (uuid4Int_lt e) (uuid4Int_lt e2) hcon)

/-- Witness for C5 at concrete entropy draws 0 and 1. -/
theorem send_simulation_request_properties_witness :
    uuid4Int 0 ≠ uuid4Int 1 ∧
    ((send_simulation_request cfgEx heapEx 0 0).2.properties.delivery_mode = 2 ∧
     (send_simulation_request cfgEx heapEx 0 0).2.properties.content_type = "application/x-yaml" ∧
     (send_simulation_request cfgEx heapEx 0 0).2.body = yamlDump (heapEx.get 0) ∧
     (send_simulation_request cfgEx heapEx 0 0).2.properties.message_id = uuidString (uuid4Int 0) ∧
     ((send_simulation_request cfgEx heapEx 0 0).2.properties.message_id).length = 36 ∧
     (send_simulation_request cfgEx heapEx 0 0).2.properties.message_id ≠
       (send_simulation_request cfgEx heapEx 0 1).2.properties.message_id) :=
  ⟨by decide, send_simulation_request_properties cfgEx cfgEx heapEx heapEx 0 0 0 1 (by decide)⟩
